import Mathlib

/-!
Shallow embedding of src/ex2/nexus_pipeline.py: a staged data-processing
pipeline with per-stage error recovery, format adapters and a manager
offering fan-out and chain orchestration.

Python values flowing through the pipeline are modelled by the inductive
type Value (strings and integers cover every value the program builds or
compares). Exceptions are modelled by PyError, whose kind distinguishes
TypeError and ValueError (the recoverable classes caught by run_stages)
from every other class. A stage is a function from a value to an Except
result; mutation of the per-adapter counter is modelled by explicit state
passing: Adapter.process returns the updated adapter next to its result.
-/

deriving instance DecidableEq for Except

namespace NexusPipeline

/-- A Python value in the pipeline: a string or an integer. -/
inductive Value where
  | vStr (s : String)
  | vInt (n : Int)
deriving DecidableEq, Repr

/-- Python str(v), as used by the f-strings in the source. -/
def pyStr : Value → String
  | .vStr s => s
  | .vInt n => toString n

/-- Python equality test of a value against a string literal, as in
the comparison of data with the sentinel in TransformStage.process;
a non-string value never equals a string. -/
def Value.eqStr : Value → String → Bool
  | .vStr s, t => s == t
  | .vInt _, _ => false

/-- The class of a raised Python exception. -/
inductive ErrKind where
  | typeError
  | valueError
  | other (name : String)
deriving DecidableEq, Repr

/-- A raised Python exception: its class and its message. -/
structure PyError where
  kind : ErrKind
  msg : String
deriving DecidableEq, Repr

/-- Whether the except (TypeError, ValueError) clauses of the source
catch this exception. -/
def recoverable (e : PyError) : Bool :=
  match e.kind with
  | .typeError => true
  | .valueError => true
  | .other _ => false

/-- A ProcessingStage: process(data) -> data, possibly raising. -/
abbrev Stage := Value → Except PyError Value

/-- InputStage.process: pass-through. -/
def InputStage.process : Stage := fun data => .ok data

/-- TransformStage.process: raises ValueError with message
Invalid data format when data == FAIL, else pass-through. -/
def TransformStage.process : Stage := fun data =>
  if data.eqStr "FAIL" then
    .error { kind := .valueError, msg := "Invalid data format" }
  else
    .ok data

/-- OutputStage.process: pass-through. -/
def OutputStage.process : Stage := fun data => .ok data

/-- The format label distinguishing the three ProcessingPipeline
subclasses JSONAdapter, CSVAdapter and StreamAdapter. -/
inductive AdapterKind where
  | json
  | csv
  | stream
deriving DecidableEq, Repr

/-- The literal each subclass wraps its result with. -/
def formatLabel : AdapterKind → String
  | .json => "Processed JSON data: "
  | .csv => "Processed CSV data: "
  | .stream => "Processed STREAM data: "

/-- A ProcessingPipeline object together with the subclass tag that
selects its wrapping label. -/
structure Adapter where
  pipeline_id : String
  stages : List Stage
  processed_count : Nat
  kind : AdapterKind

/-- ProcessingPipeline.__init__: empty stage list, count zero. -/
def mkAdapter (pipeline_id : String) (kind : AdapterKind) : Adapter :=
  { pipeline_id := pipeline_id, stages := [], processed_count := 0, kind := kind }

/-- ProcessingPipeline.add_stage: append to the stage list. -/
def Adapter.add_stage (p : Adapter) (s : Stage) : Adapter :=
  { p with stages := p.stages ++ [s] }

/-- ProcessingPipeline.run_stages: left-to-right fold over the stages.
A TypeError or ValueError from a stage is caught and the current value is
replaced by the marker string prepended to str of the value the failing
stage received; any other exception propagates. -/
def runStages : List Stage → Value → Except PyError Value
  | [], current => .ok current
  | stage :: rest, current =>
    match stage current with
    | .ok v => runStages rest v
    | .error e =>
      if recoverable e then
        runStages rest (.vStr ("[RECOVERED]" ++ pyStr current))
      else
        .error e

/-- JSONAdapter.process, CSVAdapter.process, StreamAdapter.process: run
the stages, on success increment processed_count and wrap the result with
the format label; a propagating exception leaves the object unchanged. -/
def Adapter.process (a : Adapter) (data : Value) : Adapter × Except PyError Value :=
  match runStages a.stages data with
  | .ok result =>
      ({ a with processed_count := a.processed_count + 1 },
       .ok (.vStr (formatLabel a.kind ++ pyStr result)))
  | .error e => (a, .error e)

/-- NexusManager.execute_all over manager.pipelines: each adapter is run
on the same original input. The loop body catches TypeError and ValueError
and continues; any other exception aborts the remaining iterations.
Returned: the final adapter states, the results the loop printed, and the
propagating exception if one occurred. -/
def execute_all : List Adapter → Value → List Adapter × List Value × Option PyError
  | [], _ => ([], [], none)
  | p :: rest, data =>
    match p.process data with
    | (p', .ok v) =>
        let (rest', vs, err) := execute_all rest data
        (p' :: rest', v :: vs, err)
    | (p', .error e) =>
        if recoverable e then
          let (rest', vs, err) := execute_all rest data
          (p' :: rest', vs, err)
        else
          (p' :: rest, [], some e)

/-- NexusManager.execute_chain over manager.pipelines: the output of one
adapter is the input of the next; no exception handling at this level.
Returned: the final adapter states and the final value or the propagating
exception. -/
def execute_chain : List Adapter → Value → List Adapter × Except PyError Value
  | [], data => ([], .ok data)
  | p :: rest, data =>
    match p.process data with
    | (p', .ok v) =>
        let (rest', out) := execute_chain rest v
        (p' :: rest', out)
    | (p', .error e) => (p' :: rest, .error e)

/-- Modelled from the spec words for execute_chain: initialize current to
data; for each adapter in order, set current to adapter.process(current).
This is the value-level left fold the refinement claim compares against. -/
def chainValueFold (ps : List Adapter) (data : Value) : Except PyError Value :=
  List.foldlM (fun current p => (Adapter.process p current).2) data ps

/-- The three-stage JSON pipeline built in main. -/
def jsonPipeline : Adapter :=
  ((mkAdapter "JSON_01" .json).add_stage InputStage.process
    |>.add_stage TransformStage.process
    |>.add_stage OutputStage.process)

/-- A stage raising an exception of a non-recoverable class. -/
def fatalStage : Stage :=
  fun _ => .error { kind := .other "RuntimeError", msg := "boom" }

/-- An adapter whose single stage raises a non-recoverable exception. -/
def fatalAdapter : Adapter :=
  (mkAdapter "CSV_01" .csv).add_stage fatalStage

/-! Helper lemmas shared by the claim theorems. -/

theorem runStages_cons_ok (st : Stage) (rest : List Stage) (d w : Value)
    (h : st d = .ok w) : runStages (st :: rest) d = runStages rest w := by
  simp [runStages, h]

theorem runStages_cons_rec (st : Stage) (rest : List Stage) (d : Value) (e : PyError)
    (h : st d = .error e) (hr : recoverable e = true) :
    runStages (st :: rest) d = runStages rest (.vStr ("[RECOVERED]" ++ pyStr d)) := by
  simp [runStages, h, hr]

theorem runStages_cons_fatal (st : Stage) (rest : List Stage) (d : Value) (e : PyError)
    (h : st d = .error e) (hr : recoverable e = false) :
    runStages (st :: rest) d = .error e := by
  simp [runStages, h, hr]

theorem runStages_append_ok (xs ys : List Stage) (d v : Value)
    (h : runStages xs d = .ok v) :
    runStages (xs ++ ys) d = runStages ys v := by
  induction xs generalizing d with
  | nil =>
    simp only [runStages] at h
    cases h
    simp
  | cons st xs ih =>
    rw [List.cons_append]
    cases hst : st d with
    | ok w =>
      rw [runStages_cons_ok st xs d w hst] at h
      rw [runStages_cons_ok st (xs ++ ys) d w hst]
      exact ih w h
    | error e =>
      cases hr : recoverable e with
      | true =>
        rw [runStages_cons_rec st xs d e hst hr] at h
        rw [runStages_cons_rec st (xs ++ ys) d e hst hr]
        exact ih _ h
      | false =>
        rw [runStages_cons_fatal st xs d e hst hr] at h
        cases h

theorem runStages_error_not_recoverable (sts : List Stage) (d : Value) (e : PyError)
    (h : runStages sts d = .error e) : recoverable e = false := by
  induction sts generalizing d with
  | nil => cases h
  | cons st sts ih =>
    cases hst : st d with
    | ok w =>
      rw [runStages_cons_ok st sts d w hst] at h
      exact ih w h
    | error e' =>
      cases hr : recoverable e' with
      | true =>
        rw [runStages_cons_rec st sts d e' hst hr] at h
        exact ih _ h
      | false =>
        rw [runStages_cons_fatal st sts d e' hst hr] at h
        cases h
        exact hr

theorem process_ok (a : Adapter) (d r : Value)
    (h : runStages a.stages d = .ok r) :
    a.process d = ({ a with processed_count := a.processed_count + 1 },
      .ok (Value.vStr (formatLabel a.kind ++ pyStr r))) := by
  simp [Adapter.process, h]

theorem process_error_eq (a : Adapter) (d : Value) (e : PyError)
    (h : runStages a.stages d = .error e) :
    a.process d = (a, .error e) := by
  simp [Adapter.process, h]

theorem process_snd_ok_count (a : Adapter) (d v : Value)
    (h : (a.process d).2 = .ok v) :
    ((a.process d).1).processed_count = a.processed_count + 1 := by
  cases hr : runStages a.stages d with
  | ok r => rw [process_ok a d r hr]
  | error e => rw [process_error_eq a d e hr] at h; cases h

theorem process_snd_error_fst (a : Adapter) (d : Value) (e : PyError)
    (h : (a.process d).2 = .error e) : (a.process d).1 = a := by
  cases hr : runStages a.stages d with
  | ok r => rw [process_ok a d r hr] at h; cases h
  | error e' => rw [process_error_eq a d e' hr]

theorem process_count_le (a : Adapter) (d : Value) :
    a.processed_count ≤ ((a.process d).1).processed_count := by
  cases hr : runStages a.stages d with
  | ok r => rw [process_ok a d r hr]; exact Nat.le_succ _
  | error e => rw [process_error_eq a d e hr]

theorem eqStr_fail_of_ne (v : Value) (hv : v ≠ Value.vStr "FAIL") :
    v.eqStr "FAIL" = false := by
  cases v with
  | vStr s =>
    simp only [Value.eqStr, beq_eq_false_iff_ne, ne_eq]
    intro h
    exact hv (by rw [h])
  | vInt n => rfl

theorem execute_all_cons_ok (p : Adapter) (rest : List Adapter) (d v : Value)
    (p' : Adapter) (h : p.process d = (p', .ok v)) :
    execute_all (p :: rest) d =
      (p' :: (execute_all rest d).1,
       v :: (execute_all rest d).2.1,
       (execute_all rest d).2.2) := by
  simp [execute_all, h]

theorem execute_all_cons_rec (p : Adapter) (rest : List Adapter) (d : Value)
    (p' : Adapter) (e : PyError) (h : p.process d = (p', .error e))
    (hr : recoverable e = true) :
    execute_all (p :: rest) d =
      (p' :: (execute_all rest d).1,
       (execute_all rest d).2.1,
       (execute_all rest d).2.2) := by
  simp [execute_all, h, hr]

theorem execute_all_cons_fatal (p : Adapter) (rest : List Adapter) (d : Value)
    (p' : Adapter) (e : PyError) (h : p.process d = (p', .error e))
    (hr : recoverable e = false) :
    execute_all (p :: rest) d = (p' :: rest, [], some e) := by
  simp [execute_all, h, hr]

theorem execute_chain_cons_ok (p : Adapter) (rest : List Adapter) (d v : Value)
    (p' : Adapter) (h : p.process d = (p', .ok v)) :
    execute_chain (p :: rest) d =
      (p' :: (execute_chain rest v).1, (execute_chain rest v).2) := by
  simp [execute_chain, h]

theorem execute_chain_cons_error (p : Adapter) (rest : List Adapter) (d : Value)
    (p' : Adapter) (e : PyError) (h : p.process d = (p', .error e)) :
    execute_chain (p :: rest) d = (p' :: rest, .error e) := by
  simp [execute_chain, h]

theorem execute_all_counts_mono (ps : List Adapter) (d : Value) :
    List.Forall₂ (fun p q => p.processed_count ≤ q.processed_count)
      ps (execute_all ps d).1 := by
  induction ps with
  | nil => exact List.Forall₂.nil
  | cons p rest ih =>
    have hmk : p.process d = ((p.process d).1, (p.process d).2) := rfl
    cases hr : (p.process d).2 with
    | ok v =>
      rw [hr] at hmk
      rw [execute_all_cons_ok p rest d v (p.process d).1 hmk]
      exact List.Forall₂.cons (process_count_le p d) ih
    | error e =>
      rw [hr] at hmk
      cases hc : recoverable e with
      | true =>
        rw [execute_all_cons_rec p rest d (p.process d).1 e hmk hc]
        exact List.Forall₂.cons (process_count_le p d) ih
      | false =>
        rw [execute_all_cons_fatal p rest d (p.process d).1 e hmk hc]
        exact List.Forall₂.cons (process_count_le p d)
          (List.forall₂_same.mpr fun x _ => Nat.le_refl _)

theorem execute_chain_counts_mono (ps : List Adapter) (d : Value) :
    List.Forall₂ (fun p q => p.processed_count ≤ q.processed_count)
      ps (execute_chain ps d).1 := by
  induction ps generalizing d with
  | nil => exact List.Forall₂.nil
  | cons p rest ih =>
    have hmk : p.process d = ((p.process d).1, (p.process d).2) := rfl
    cases hr : (p.process d).2 with
    | ok v =>
      rw [hr] at hmk
      rw [execute_chain_cons_ok p rest d v (p.process d).1 hmk]
      exact List.Forall₂.cons (process_count_le p d) (ih v)
    | error e =>
      rw [hr] at hmk
      rw [execute_chain_cons_error p rest d (p.process d).1 e hmk]
      exact List.Forall₂.cons (process_count_le p d)
        (List.forall₂_same.mpr fun x _ => Nat.le_refl _)

theorem execute_all_of_all_ok (ps : List Adapter) (d : Value)
    (h : ∀ p ∈ ps, ∃ v, (p.process d).2 = .ok v) :
    ∃ vs, execute_all ps d = (ps.map (fun p => (p.process d).1), vs, none)
      ∧ List.Forall₂ (fun p v => (p.process d).2 = .ok v) ps vs := by
  induction ps with
  | nil => exact ⟨[], rfl, List.Forall₂.nil⟩
  | cons p rest ih =>
    obtain ⟨v, hv⟩ := h p (List.mem_cons_self p rest)
    obtain ⟨vs, hrest, hfa⟩ := ih fun q hq => h q (List.mem_cons_of_mem p hq)
    have hp : p.process d = ((p.process d).1, .ok v) := by rw [← hv]
    refine ⟨v :: vs, ?_, List.Forall₂.cons hv hfa⟩
    rw [execute_all_cons_ok p rest d v (p.process d).1 hp, hrest]
    simp

theorem execute_all_fatal_aux (pre : List Adapter) (a : Adapter)
    (rest : List Adapter) (d : Value) (e : PyError)
    (hpre : ∀ p ∈ pre, ∃ v, (p.process d).2 = .ok v)
    (hfail : (a.process d).2 = .error e)
    (hfatal : recoverable e = false) :
    ∃ vs, execute_all (pre ++ a :: rest) d
      = (pre.map (fun p => (p.process d).1) ++ a :: rest, vs, some e) := by
  induction pre with
  | nil =>
    have ha : a.process d = (a, .error e) :=
      Prod.ext (process_snd_error_fst a d e hfail) hfail
    refine ⟨[], ?_⟩
    rw [List.nil_append, execute_all_cons_fatal a rest d a e ha hfatal]
    simp
  | cons p pre ih =>
    obtain ⟨v, hv⟩ := hpre p (List.mem_cons_self p pre)
    obtain ⟨vs, hrest⟩ := ih fun q hq => hpre q (List.mem_cons_of_mem p hq)
    have hp : p.process d = ((p.process d).1, .ok v) := by rw [← hv]
    refine ⟨v :: vs, ?_⟩
    rw [List.cons_append,
      execute_all_cons_ok p (pre ++ a :: rest) d v (p.process d).1 hp, hrest]
    simp

theorem execute_chain_snd_eq_fold (ps : List Adapter) (d : Value) :
    (execute_chain ps d).2 = chainValueFold ps d := by
  induction ps generalizing d with
  | nil => rfl
  | cons p rest ih =>
    have hmk : p.process d = ((p.process d).1, (p.process d).2) := rfl
    cases hr : (p.process d).2 with
    | ok v =>
      rw [hr] at hmk
      rw [execute_chain_cons_ok p rest d v (p.process d).1 hmk]
      show (execute_chain rest v).2 = chainValueFold (p :: rest) d
      rw [ih]
      simp only [chainValueFold, List.foldlM_cons, hr]
      rfl
    | error e =>
      rw [hr] at hmk
      rw [execute_chain_cons_error p rest d (p.process d).1 e hmk]
      show Except.error e = chainValueFold (p :: rest) d
      simp only [chainValueFold, List.foldlM_cons, hr]
      rfl

/-! The claim theorems. -/

/-- Claim C1: when a stage raises a recoverable error (TypeError or
ValueError) during run_stages, the current value is replaced by the
marker [RECOVERED] prepended to the string representation of the value
that was the failing stage input (the failing stage output is discarded),
the failing stage is not retried, and the fold continues with the next
stage using that marker-wrapped value. -/
theorem recovery_uses_failing_stage_input
    (pre rest : List Stage) (st : Stage) (d0 d : Value) (e : PyError)
    (hpre : runStages pre d0 = .ok d)
    (hfail : st d = .error e)
    (hrec : recoverable e = true) :
    runStages (pre ++ st :: rest) d0
      = runStages rest (Value.vStr ("[RECOVERED]" ++ pyStr d)) := by
  rw [runStages_append_ok pre (st :: rest) d0 d hpre,
    runStages_cons_rec st rest d e hfail hrec]

/-- Witness for C1: in the three-stage pipeline on input FAIL, the
Transform stage fails and the run continues on [RECOVERED]FAIL. -/
theorem recovery_uses_failing_stage_input_witness :
    runStages ([InputStage.process] ++ TransformStage.process :: [OutputStage.process])
        (Value.vStr "FAIL")
      = runStages [OutputStage.process]
          (Value.vStr ("[RECOVERED]" ++ pyStr (Value.vStr "FAIL"))) :=
  recovery_uses_failing_stage_input [InputStage.process] [OutputStage.process]
    TransformStage.process (Value.vStr "FAIL") (Value.vStr "FAIL")
    { kind := .valueError, msg := "Invalid data format" } rfl rfl rfl

/-- Claim C2: a TypeError or ValueError raised by a stage is caught
inside run_stages and never terminates the run, so an error escaping
run_stages is of another class; such an error propagates out of the
adapter process and processed_count is then not incremented. -/
theorem fatal_escapes_without_increment (a : Adapter) (d : Value) (e : PyError) :
    (runStages a.stages d = .error e → recoverable e = false)
    ∧ (runStages a.stages d = .error e → a.process d = (a, .error e)) :=
  ⟨runStages_error_not_recoverable a.stages d e,
   fun h => process_error_eq a d e h⟩

/-- Witness for C2: an adapter with a stage raising a RuntimeError. -/
theorem fatal_escapes_without_increment_witness :
    recoverable { kind := ErrKind.other "RuntimeError", msg := "boom" } = false
    ∧ fatalAdapter.process (Value.vStr "d")
        = (fatalAdapter, .error { kind := ErrKind.other "RuntimeError", msg := "boom" }) :=
  ⟨(fatal_escapes_without_increment fatalAdapter (Value.vStr "d")
      { kind := .other "RuntimeError", msg := "boom" }).1 rfl,
   (fatal_escapes_without_increment fatalAdapter (Value.vStr "d")
      { kind := .other "RuntimeError", msg := "boom" }).2 rfl⟩

/-- Claim C3: processed_count starts at 0, is monotonically
non-decreasing across every operation, and is incremented by exactly 1
per completed top-level process call, regardless of internal recovery. -/
theorem processed_count_invariants :
    (∀ pid k, (mkAdapter pid k).processed_count = 0)
    ∧ (∀ (a : Adapter) (s : Stage), (a.add_stage s).processed_count = a.processed_count)
    ∧ (∀ (a : Adapter) (d v : Value), (a.process d).2 = .ok v →
        ((a.process d).1).processed_count = a.processed_count + 1)
    ∧ (∀ (a : Adapter) (d : Value) (e : PyError), (a.process d).2 = .error e →
        ((a.process d).1).processed_count = a.processed_count)
    ∧ (∀ (a : Adapter) (d : Value),
        a.processed_count ≤ ((a.process d).1).processed_count)
    ∧ (∀ (ps : List Adapter) (d : Value),
        List.Forall₂ (fun p q => p.processed_count ≤ q.processed_count)
          ps (execute_all ps d).1)
    ∧ (∀ (ps : List Adapter) (d : Value),
        List.Forall₂ (fun p q => p.processed_count ≤ q.processed_count)
          ps (execute_chain ps d).1) := by
  refine ⟨fun _ _ => rfl, fun _ _ => rfl, ?_, ?_, process_count_le,
    execute_all_counts_mono, execute_chain_counts_mono⟩
  · exact fun a d v h => process_snd_ok_count a d v h
  · intro a d e h
    rw [process_snd_error_fst a d e h]

/-- Witness for C3: a fresh adapter has count 0 and one completed
process call brings it to 1. -/
theorem processed_count_invariants_witness :
    (mkAdapter "X" AdapterKind.json).processed_count = 0
    ∧ (((mkAdapter "X" AdapterKind.json).process (Value.vStr "a")).1).processed_count
        = (mkAdapter "X" AdapterKind.json).processed_count + 1 :=
  ⟨processed_count_invariants.1 "X" AdapterKind.json,
   processed_count_invariants.2.2.1 (mkAdapter "X" AdapterKind.json) (Value.vStr "a")
     (Value.vStr (formatLabel AdapterKind.json ++ pyStr (Value.vStr "a"))) rfl⟩

/-- Claim C4: execute_chain is the left fold of adapter process over the
manager adapter sequence starting from the input and returns the final
current value; for two adapters A then B with no failures, the chain of x
equals B.process applied to the value of A.process x. -/
theorem execute_chain_is_left_fold :
    (∀ (ps : List Adapter) (d : Value),
        (execute_chain ps d).2 = chainValueFold ps d)
    ∧ (∀ (A B A' B' : Adapter) (x y z : Value),
        A.process x = (A', .ok y) → B.process y = (B', .ok z) →
        (execute_chain [A, B] x).2 = .ok z) := by
  refine ⟨execute_chain_snd_eq_fold, ?_⟩
  intro A B A' B' x y z hA hB
  rw [execute_chain_cons_ok A [B] x y A' hA,
    execute_chain_cons_ok B [] y z B' hB]
  rfl

/-- Witness for C4: chaining two stage-less adapters wraps twice. -/
theorem execute_chain_is_left_fold_witness :
    (execute_chain [mkAdapter "A" AdapterKind.json, mkAdapter "B" AdapterKind.csv]
        (Value.vStr "hi")).2
      = .ok (Value.vStr (formatLabel AdapterKind.csv
          ++ pyStr (Value.vStr (formatLabel AdapterKind.json
            ++ pyStr (Value.vStr "hi"))))) :=
  execute_chain_is_left_fold.2
    (mkAdapter "A" AdapterKind.json) (mkAdapter "B" AdapterKind.csv)
    { mkAdapter "A" AdapterKind.json with processed_count := 1 }
    { mkAdapter "B" AdapterKind.csv with processed_count := 1 }
    (Value.vStr "hi")
    (Value.vStr (formatLabel AdapterKind.json ++ pyStr (Value.vStr "hi")))
    (Value.vStr (formatLabel AdapterKind.csv
      ++ pyStr (Value.vStr (formatLabel AdapterKind.json ++ pyStr (Value.vStr "hi")))))
    rfl rfl

/-- Claim C5: if during execute_all the k-th adapter raises a
non-recoverable error, execution stops before adapter k+1 runs (the
remaining adapters are left unexecuted and unchanged), and the adapters
before the failing one keep their incremented counters. -/
theorem execute_all_fatal_halts
    (pre rest : List Adapter) (a : Adapter) (d : Value) (e : PyError)
    (hpre : ∀ p ∈ pre, ∃ v, (p.process d).2 = .ok v)
    (hfail : (a.process d).2 = .error e)
    (hfatal : recoverable e = false) :
    (∃ vs, execute_all (pre ++ a :: rest) d
        = (pre.map (fun p => (p.process d).1) ++ a :: rest, vs, some e))
    ∧ (∀ p ∈ pre, ((p.process d).1).processed_count = p.processed_count + 1) :=
  ⟨execute_all_fatal_aux pre a rest d e hpre hfail hfatal,
   fun p hp => by
    obtain ⟨v, hv⟩ := hpre p hp
    exact process_snd_ok_count p d v hv⟩

/-- Witness for C5: a fatal RuntimeError in the second of three adapters
leaves the first incremented and the third untouched. -/
theorem execute_all_fatal_halts_witness :
    (∃ vs, execute_all
        ([mkAdapter "A" AdapterKind.json] ++ fatalAdapter :: [mkAdapter "C" AdapterKind.stream])
        (Value.vStr "d")
      = ([mkAdapter "A" AdapterKind.json].map
            (fun p => (p.process (Value.vStr "d")).1)
          ++ fatalAdapter :: [mkAdapter "C" AdapterKind.stream],
         vs, some { kind := ErrKind.other "RuntimeError", msg := "boom" }))
    ∧ (∀ p ∈ [mkAdapter "A" AdapterKind.json],
        ((p.process (Value.vStr "d")).1).processed_count = p.processed_count + 1) :=
  execute_all_fatal_halts [mkAdapter "A" AdapterKind.json]
    [mkAdapter "C" AdapterKind.stream] fatalAdapter (Value.vStr "d")
    { kind := .other "RuntimeError", msg := "boom" }
    (by
      intro p hp
      rw [List.mem_singleton] at hp
      subst hp
      exact ⟨Value.vStr (formatLabel AdapterKind.json ++ pyStr (Value.vStr "d")), rfl⟩)
    rfl rfl

/-- Claim C6: with stages Input, Transform, Output and input FAIL, the
Transform stage raises the value-format error, recovery produces
[RECOVERED]FAIL, the Output stage passes it through so the run completes,
the JSON adapter returns Processed JSON data: [RECOVERED]FAIL, and
processed_count still increments by 1. -/
theorem fail_sentinel_scenario :
    TransformStage.process (Value.vStr "FAIL")
      = .error { kind := ErrKind.valueError, msg := "Invalid data format" }
    ∧ runStages jsonPipeline.stages (Value.vStr "FAIL")
      = .ok (Value.vStr "[RECOVERED]FAIL")
    ∧ OutputStage.process (Value.vStr "[RECOVERED]FAIL")
      = .ok (Value.vStr "[RECOVERED]FAIL")
    ∧ (jsonPipeline.process (Value.vStr "FAIL")).2
      = .ok (Value.vStr "Processed JSON data: [RECOVERED]FAIL")
    ∧ ((jsonPipeline.process (Value.vStr "FAIL")).1).processed_count
      = jsonPipeline.processed_count + 1 := by
  refine ⟨?_, ?_, ?_, ?_, ?_⟩ <;> decide

/-- Claim C7: for every input other than the sentinel, the three-stage
pipeline Input, Transform, Output returns the input unchanged from
run_stages, and a top-level process call increments processed_count by
exactly 1. -/
theorem non_sentinel_pass_through (a : Adapter) (v : Value)
    (hv : v ≠ Value.vStr "FAIL")
    (hs : a.stages = [InputStage.process, TransformStage.process, OutputStage.process]) :
    runStages a.stages v = .ok v
    ∧ ((a.process v).1).processed_count = a.processed_count + 1 := by
  have h1 : runStages a.stages v = .ok v := by
    rw [hs]
    simp [runStages, InputStage.process, TransformStage.process, OutputStage.process,
      eqStr_fail_of_ne v hv]
  refine ⟨h1, ?_⟩
  rw [process_ok a v v h1]

/-- Witness for C7: the pipeline from main on input TEST DATA. -/
theorem non_sentinel_pass_through_witness :
    runStages jsonPipeline.stages (Value.vStr "TEST DATA")
      = .ok (Value.vStr "TEST DATA")
    ∧ ((jsonPipeline.process (Value.vStr "TEST DATA")).1).processed_count
      = jsonPipeline.processed_count + 1 :=
  non_sentinel_pass_through jsonPipeline (Value.vStr "TEST DATA") (by decide) rfl

/-- Claim C8: execute_all with N adapters and no fatal error produces N
results, each one the corresponding adapter applied to the same original
input, and increments every counter by 1. -/
theorem execute_all_independent (ps : List Adapter) (d : Value)
    (h : ∀ p ∈ ps, ∃ v, (p.process d).2 = .ok v) :
    (∃ vs, execute_all ps d = (ps.map (fun p => (p.process d).1), vs, none)
      ∧ List.Forall₂ (fun p v => (p.process d).2 = .ok v) ps vs)
    ∧ (∀ p ∈ ps, ((p.process d).1).processed_count = p.processed_count + 1) :=
  ⟨execute_all_of_all_ok ps d h,
   fun p hp => by
    obtain ⟨v, hv⟩ := h p hp
    exact process_snd_ok_count p d v hv⟩

/-- Witness for C8: two stage-less adapters, both run on the same input
and both incremented. -/
theorem execute_all_independent_witness :
    (∃ vs, execute_all [mkAdapter "A" AdapterKind.json, mkAdapter "B" AdapterKind.csv]
        (Value.vStr "hi")
      = ([mkAdapter "A" AdapterKind.json, mkAdapter "B" AdapterKind.csv].map
          (fun p => (p.process (Value.vStr "hi")).1), vs, none)
      ∧ List.Forall₂ (fun p v => (p.process (Value.vStr "hi")).2 = .ok v)
          [mkAdapter "A" AdapterKind.json, mkAdapter "B" AdapterKind.csv] vs)
    ∧ (∀ p ∈ [mkAdapter "A" AdapterKind.json, mkAdapter "B" AdapterKind.csv],
        ((p.process (Value.vStr "hi")).1).processed_count = p.processed_count + 1) :=
  execute_all_independent [mkAdapter "A" AdapterKind.json, mkAdapter "B" AdapterKind.csv]
    (Value.vStr "hi")
    (by
      intro p hp
      rw [List.mem_cons, List.mem_singleton] at hp
      cases hp with
      | inl h => subst h; exact ⟨Value.vStr (formatLabel AdapterKind.json ++ pyStr (Value.vStr "hi")), rfl⟩
      | inr h => subst h; exact ⟨Value.vStr (formatLabel AdapterKind.csv ++ pyStr (Value.vStr "hi")), rfl⟩)

/-- Counterexample for C9: at the sentinel input, the Transform stage
raises the message Invalid data format with a capital I, not the message
invalid data format stated by the claim. -/
theorem transform_message_counterexample :
    TransformStage.process (Value.vStr "FAIL")
      = .error { kind := ErrKind.valueError, msg := "Invalid data format" }
    ∧ TransformStage.process (Value.vStr "FAIL")
      ≠ .error { kind := ErrKind.valueError, msg := "invalid data format" } := by
  refine ⟨rfl, ?_⟩
  decide

/-- Claim C9 amended: the Transform stage fails with a ValueError-class
error carrying the message Invalid data format exactly when its input
equals the sentinel string literal, and otherwise returns its input
unchanged. -/
theorem transform_fails_iff_sentinel (v : Value) :
    (TransformStage.process v
        = .error { kind := ErrKind.valueError, msg := "Invalid data format" }
      ↔ v = Value.vStr "FAIL")
    ∧ (v ≠ Value.vStr "FAIL" → TransformStage.process v = .ok v) := by
  constructor
  · constructor
    · intro h
      by_contra hne
      rw [show TransformStage.process v = .ok v by
        simp [TransformStage.process, eqStr_fail_of_ne v hne]] at h
      cases h
    · intro h
      subst h
      rfl
  · intro hne
    simp [TransformStage.process, eqStr_fail_of_ne v hne]

/-- Witness for C9 amended: the sentinel fails with the capitalized
message and a non-sentinel passes through. -/
theorem transform_fails_iff_sentinel_witness :
    TransformStage.process (Value.vStr "FAIL")
      = .error { kind := ErrKind.valueError, msg := "Invalid data format" }
    ∧ TransformStage.process (Value.vStr "data") = .ok (Value.vStr "data") :=
  ⟨(transform_fails_iff_sentinel (Value.vStr "FAIL")).1.mpr rfl,
   (transform_fails_iff_sentinel (Value.vStr "data")).2 (by decide)⟩

/-- Claim C10: with an empty stage sequence, run_stages returns the input
unchanged and without error, and the adapter process still increments
processed_count by 1 and returns the format-labeled wrapping of the
unchanged input. -/
theorem empty_stages_identity (a : Adapter) (d : Value) (h : a.stages = []) :
    runStages a.stages d = .ok d
    ∧ a.process d = ({ a with processed_count := a.processed_count + 1 },
        .ok (Value.vStr (formatLabel a.kind ++ pyStr d))) := by
  have h1 : runStages a.stages d = .ok d := by rw [h]; rfl
  exact ⟨h1, process_ok a d d h1⟩

/-- Witness for C10: a freshly constructed adapter has no stages. -/
theorem empty_stages_identity_witness :
    runStages (mkAdapter "E" AdapterKind.json).stages (Value.vStr "x")
      = .ok (Value.vStr "x")
    ∧ (mkAdapter "E" AdapterKind.json).process (Value.vStr "x")
      = ({ mkAdapter "E" AdapterKind.json with
            processed_count := (mkAdapter "E" AdapterKind.json).processed_count + 1 },
         .ok (Value.vStr (formatLabel (mkAdapter "E" AdapterKind.json).kind
            ++ pyStr (Value.vStr "x")))) :=
  empty_stages_identity (mkAdapter "E" AdapterKind.json) (Value.vStr "x") rfl

end NexusPipeline
